import Mathlib

/-!
Verification of the durable-execution SDK core against its code.

The definitions below are a shallow embedding of the Python sources:
* `execute_action` embeds `WorkflowContext.execute_action`
  (src/app/workflow_context.py), with the engine and the user action
  modelled as an oracle (`ActionEnv`) supplying, for each call of
  `InternalEndureClient.send_log` and each invocation of the action
  callable, the outcome the Python runtime would observe.
* `handler` embeds the request handler built by
  `Workflow.get_handler_route` together with `Workflow._convert_input`
  (src/app/_internal/workflow.py).
* `register_workflow` embeds `ServiceRegistry.register_workflow`
  (src/app/_internal/service_registry.py).

Machine-level conventions: JSON data is the inductive `Value`; Python
truthiness is `Value.truthy`; Python dicts are association lists with
insertion order; unix times are integers (the embedding works at whole
second resolution, which is enough for the before/after comparisons the
code performs).
-/

namespace DurableSDK

/-- JSON-like values exchanged with the engine. -/
inductive Value where
  | null
  | bool (b : Bool)
  | int (n : Int)
  | str (s : String)
  | list (xs : List Value)
  | obj (kvs : List (String × Value))
deriving Repr

/-- Python truthiness of a JSON-like value, as used by
the code in `output if output else ...` and `if retry_at_unix:`. -/
def Value.truthy : Value → Bool
  | .null => false
  | .bool b => b
  | .int n => n != 0
  | .str s => s != ""
  | .list xs => !xs.isEmpty
  | .obj kvs => !kvs.isEmpty

/-- Python `dict.get`: lookup in a dict modelled as an association list. -/
def getKey (kvs : List (String × Value)) (k : String) : Option Value :=
  (kvs.find? (fun p => p.1 == k)).map (fun p => p.2)

/-- Numeric reading of a value, as Python uses `retry_at_unix` in the
subtraction `retry_at_unix - time.time()` (bools are numbers in Python). -/
def Value.asTime : Value → Option Int
  | .int n => some n
  | .bool b => some (if b then 1 else 0)
  | _ => none

/-- The `LogStatus` enum of src/app/types.py. -/
inductive LogStatus where
  | STARTED
  | COMPLETED
  | FAILED
deriving Repr, DecidableEq

/-- The `RetryMechanism` enum of src/app/types.py. -/
inductive RetryMechanism where
  | EXPONENTIAL
  | LINEAR
  | CONSTANT
deriving Repr, DecidableEq

/-- The `Log` dataclass of src/app/types.py (the timestamp field plays no
role in any claim and is omitted). -/
structure Log where
  status : LogStatus
  input : Option Value := none
  output : Option Value := none
  max_retries : Option Nat := none
  retry_mechanism : Option RetryMechanism := none
deriving Repr

/-- The `Response.to_dict()` envelope that `InternalEndureClient.send_log`
returns: a status code and a payload dict (the empty dict when the body was
not JSON). -/
structure Response where
  status_code : Nat
  payload : List (String × Value) := []
deriving Repr

/-- Outcome of one call of `InternalEndureClient.send_log`: the engine
answered (any HTTP status: `raise_for_status` errors are caught inside the
client and turned into an envelope), or the call raised a
`requests.RequestException` (transport failure), or a `ValueError`
(missing base URL or missing arguments). -/
inductive SendOutcome where
  | ok (r : Response)
  | raiseRequestError (msg : String)
  | raiseValueError (msg : String)
deriving Repr

/-- Outcome of one invocation of the action callable. -/
inductive ActOutcome where
  | ok (v : Value)
  | raiseValueError (msg : String)
  | raiseRequestError (msg : String)
  | raiseOther (msg : String)
deriving Repr

/-- Oracle for one `execute_action` call: what each external interaction
would produce.  `act k` is the outcome of invoking the action on attempt
`k` (0-based); `failedOutcome k` answers the FAILED log of attempt `k`;
`now k` is `time.time()` at the retry decision of attempt `k`. -/
structure ActionEnv where
  startedOutcome : SendOutcome
  act : Nat → ActOutcome
  failedOutcome : Nat → SendOutcome
  completedOutcome : SendOutcome
  now : Nat → Int

/-- How one `execute_action` call ends. -/
inductive ExecResult where
  | ret (v : Value)
  | endureException (code : Nat) (output : Value)
  | valueError (msg : String)
  | requestError (msg : String)
  | runtimeError
  | typeError
  | outOfFuel
deriving Repr

/-- One `execute_action` call: its final outcome, the logs passed to
`send_log` in order, the positive sleeps performed, and how many times the
action callable was invoked. -/
structure ExecRun where
  result : ExecResult
  logs : List Log
  sleeps : List Int
  attempts : Nat
deriving Repr

/-- The `serialize_data({"error": str(e)})` payload the code attaches to
FAILED logs and to `EndureException` outputs. -/
def errorOutput (msg : String) : Value :=
  Value.obj [("error", Value.str msg)]

/-- The FAILED log the code builds from an exception message. -/
def failedLog (msg : String) : Log :=
  { status := LogStatus.FAILED, output := some (errorOutput msg) }

/-- The COMPLETED log the code builds from the action result. -/
def completedLog (v : Value) : Log :=
  { status := LogStatus.COMPLETED, output := some v }

/-- The STARTED log built at the top of `execute_action`. -/
def startedLog (input : Value) (max_retries : Nat) (mech : RetryMechanism) : Log :=
  { status := LogStatus.STARTED
    input := some input
    max_retries := some max_retries
    retry_mechanism := some mech }

/-- Outcome of one iteration of the `while True` loop body: the loop ends
(returning or raising `res`, having passed `newLogs` to `send_log`), or it
continues with the next attempt after the optional positive sleep. -/
inductive StepOut where
  | done (res : ExecResult) (newLogs : List Log)
  | retry (newLogs : List Log) (sleep : Option Int)
deriving Repr

/-- The body of the `while True` retry loop of `execute_action`
(src/app/workflow_context.py lines 166-316) for attempt `k`. -/
def attemptStep (env : ActionEnv) (k : Nat) : StepOut :=
  match env.act k with
  | ActOutcome.ok v =>
    -- lines 198-216: send COMPLETED, return the result; the response to
    -- the COMPLETED log is never inspected.  A ValueError or
    -- RequestException raised by that send is re-raised by the outer
    -- except clause.
    match env.completedOutcome with
    | SendOutcome.ok _ => StepOut.done (ExecResult.ret v) [completedLog v]
    | SendOutcome.raiseRequestError m => StepOut.done (ExecResult.requestError m) [completedLog v]
    | SendOutcome.raiseValueError m => StepOut.done (ExecResult.valueError m) [completedLog v]
  | ActOutcome.raiseValueError m =>
    -- lines 177-197: ValueError and pydantic ValidationError from the
    -- action: send FAILED, then re-raise the original exception (the
    -- outer except at lines 217-228 re-raises it unchanged).
    match env.failedOutcome k with
    | SendOutcome.ok _ => StepOut.done (ExecResult.valueError m) [failedLog m]
    | SendOutcome.raiseRequestError m2 => StepOut.done (ExecResult.requestError m2) [failedLog m]
    | SendOutcome.raiseValueError m2 => StepOut.done (ExecResult.valueError m2) [failedLog m]
  | ActOutcome.raiseRequestError m =>
    -- a requests.RequestException from the action is caught only by the
    -- outer except at lines 217-228, which re-raises it: no FAILED log.
    StepOut.done (ExecResult.requestError m) []
  | ActOutcome.raiseOther m =>
    -- lines 229-316: any other exception: send FAILED and inspect the
    -- engine response.
    match env.failedOutcome k with
    | SendOutcome.raiseRequestError m2 => StepOut.done (ExecResult.requestError m2) [failedLog m]
    | SendOutcome.raiseValueError m2 => StepOut.done (ExecResult.valueError m2) [failedLog m]
    | SendOutcome.ok r =>
      if r.status_code = 400 ∨ r.status_code = 404 ∨ r.status_code = 409 then
        if r.status_code = 409 then
          StepOut.done
            (ExecResult.endureException 409 (errorOutput "Execution Paused or Terminated"))
            [failedLog m]
        else
          StepOut.done
            (ExecResult.endureException 500 (errorOutput "Action failed after reaching max retries"))
            [failedLog m]
      else
        -- lines 289-316: any other status: read retry_at from the payload.
        match getKey r.payload "retry_at" with
        | some v =>
          if v.truthy then
            match v.asTime with
            | some t =>
              if t - env.now k > 0 then
                StepOut.retry [failedLog m] (some (t - env.now k))
              else
                -- retry time at or before now: warn and proceed at once.
                StepOut.retry [failedLog m] none
            | none => StepOut.done ExecResult.typeError [failedLog m]
          else
            -- Python: `if retry_at_unix:` is false for 0, None, etc.
            StepOut.done ExecResult.runtimeError [failedLog m]
        | none => StepOut.done ExecResult.runtimeError [failedLog m]

/-- The `while True` retry loop of `execute_action`, as a fuelled
iteration of `attemptStep`: `k` is the attempt index, `logs` and `sleeps`
accumulate the trace. -/
def runAttempts (env : ActionEnv) : Nat → Nat → List Log → List Int → ExecRun
  | 0, k, logs, sleeps => ⟨ExecResult.outOfFuel, logs, sleeps, k⟩
  | fuel + 1, k, logs, sleeps =>
    match attemptStep env k with
    | StepOut.done res newLogs => ⟨res, logs ++ newLogs, sleeps, k + 1⟩
    | StepOut.retry newLogs sleep =>
      runAttempts env fuel (k + 1) (logs ++ newLogs) (sleeps ++ sleep.toList)

/-- Shallow embedding of `WorkflowContext.execute_action`
(src/app/workflow_context.py lines 131-330).  The dead `if not
engine_response` guard is omitted: `Response.to_dict()` always returns a
non-empty dict. -/
def execute_action (env : ActionEnv) (input_data : Value) (max_retries : Nat)
    (retry_mechanism : RetryMechanism) (fuel : Nat) : ExecRun :=
  let log0 := startedLog input_data max_retries retry_mechanism
  match env.startedOutcome with
  | SendOutcome.raiseRequestError m => ⟨ExecResult.requestError m, [log0], [], 0⟩
  | SendOutcome.raiseValueError m => ⟨ExecResult.valueError m, [log0], [], 0⟩
  | SendOutcome.ok r =>
    if r.status_code = 201 ∨ r.status_code = 200 then
      runAttempts env fuel 0 [log0] []
    else if r.status_code = 208 then
      -- lines 317-322: `output = payload.get("output"); return output if
      -- output else {}`.
      let cached :=
        match getKey r.payload "output" with
        | some v => if v.truthy then v else Value.obj []
        | none => Value.obj []
      ⟨ExecResult.ret cached, [log0], [], 0⟩
    else
      ⟨ExecResult.runtimeError, [log0], [], 0⟩

/-- Claim wording for the 208 branch (spec refinement target): the value at
key `output` of the response payload, or the empty map when that key is
absent.  Compare with the `cached` computation inside `execute_action`. -/
def cachedOutputClaimed (r : Response) : Value :=
  match getKey r.payload "output" with
  | some v => v
  | none => Value.obj []

/-! ## Workflow handler (src/app/_internal/workflow.py) -/

/-- Outcome of the constructor call `input_type(**raw_input)` inside
`Workflow._convert_input`: `raiseError` stands for the `TypeError`,
`ValidationError` or `ValueError` the except clause at line 84 catches. -/
inductive ConvertOutcome where
  | ok (v : Value)
  | raiseError (msg : String)

/-- Classification of `Workflow.input_type` as `_convert_input` tests it:
`anyType` for `Any`/`None`, `recordType` for a pydantic `BaseModel`
subclass or a dataclass (with the Python behaviour of its constructor on a
keyword dict), `otherType` for every other annotation. -/
inductive InputTypeKind where
  | anyType
  | recordType (typeName : String) (construct : List (String × Value) → ConvertOutcome)
  | otherType

/-- Shallow embedding of `Workflow._convert_input`
(src/app/_internal/workflow.py lines 62-87): `Except.error` is the plain
`ValueError` the method raises when the constructor fails. -/
def convert_input (kind : InputTypeKind) (raw : Value) : Except String Value :=
  match kind with
  | InputTypeKind.anyType => Except.ok raw
  | InputTypeKind.otherType => Except.ok raw
  | InputTypeKind.recordType typeName construct =>
    match raw with
    | Value.obj kvs =>
      match construct kvs with
      | ConvertOutcome.ok v => Except.ok v
      | ConvertOutcome.raiseError m =>
        Except.error ("Failed to convert input to " ++ typeName ++ ": " ++ m)
    | _ => Except.ok raw

/-- Outcome of `InternalEndureClient.mark_execution_as_running`: the call
returns normally whenever the engine answered at all (HTTP error statuses
are caught inside the client), raises a `requests.RequestException` on
transport failure, or a `ValueError` when the base URL is missing. -/
inductive MarkOutcome where
  | ok (status_code : Nat)
  | raiseRequestError (msg : String)
  | raiseValueError (msg : String)

/-- Outcome of invoking the user workflow function. -/
inductive FuncOutcome where
  | ok (v : Value)
  | raiseValueError (msg : String)
  | raiseValidationError (msg : String)
  | raiseHTTPException (code : Nat) (detail : String)
  | raiseEndureException (code : Nat) (output : Value)
  | raiseRequestError (msg : String)
  | raiseOther (msg : String)

/-- The request body as `await request.json()` delivers it: a parsed JSON
value, or a `ValueError` for a malformed body. -/
inductive RequestBody where
  | json (v : Value)
  | invalid (msg : String)

/-- Oracle for one handler invocation. -/
structure HandlerEnv where
  body : RequestBody
  mark : MarkOutcome
  func : Value → FuncOutcome

/-- How one handler invocation ends: a success envelope, an
`EndureException` (which `DurableApp` renders as a JSON error envelope
with that status), or an `AttributeError` escaping the handler uncaught
(no `except` clause of the handler catches an exception raised inside
another except clause of the same `try`). -/
inductive HandlerResult where
  | ok (output : Value)
  | endureException (code : Nat) (output : Value)
  | uncaughtAttributeError

/-- One handler invocation: its result and whether the user function was
invoked. -/
structure HandlerRun where
  result : HandlerResult
  funcCalled : Bool

/-- The `{"error": "...", "details": "..."}` output the handler builds. -/
def errorDetails (label msg : String) : Value :=
  Value.obj [("error", Value.str label), ("details", Value.str msg)]

/-- Shallow embedding of the request handler returned by
`Workflow.get_handler_route` (src/app/_internal/workflow.py lines
224-291).  Notes kept from the source: a `ValueError` that is not a
pydantic `ValidationError` maps to 400 with label `Value error` (this is
the branch a failed `_convert_input` takes, since that method wraps the
constructor failure in a plain `ValueError`); a
`requests.RequestException` reaches an except clause that evaluates
`re.status_code`, an attribute `RequestException` does not have, so an
`AttributeError` escapes.  The literal message about the required fields
carries quotes around the field names in the source; they are dropped
here. -/
def handler (kind : InputTypeKind) (env : HandlerEnv) : HandlerRun :=
  match env.body with
  | RequestBody.invalid m => ⟨HandlerResult.endureException 400 (errorDetails "Value error" m), false⟩
  | RequestBody.json body =>
    match body with
    | Value.obj kvs =>
      if (getKey kvs "execution_id").isNone ∨ (getKey kvs "input").isNone then
        ⟨HandlerResult.endureException 400
          (Value.obj [("error", Value.str "Request must include execution_id and input fields")]), false⟩
      else
        match env.mark with
        | MarkOutcome.raiseRequestError _ => ⟨HandlerResult.uncaughtAttributeError, false⟩
        | MarkOutcome.raiseValueError m =>
          ⟨HandlerResult.endureException 400 (errorDetails "Value error" m), false⟩
        | MarkOutcome.ok _ =>
          match convert_input kind ((getKey kvs "input").getD Value.null) with
          | Except.error m =>
            ⟨HandlerResult.endureException 400 (errorDetails "Value error" m), false⟩
          | Except.ok converted =>
            match env.func converted with
            | FuncOutcome.ok v => ⟨HandlerResult.ok v, true⟩
            | FuncOutcome.raiseValidationError m =>
              ⟨HandlerResult.endureException 422 (errorDetails "Validation error" m), true⟩
            | FuncOutcome.raiseValueError m =>
              ⟨HandlerResult.endureException 400 (errorDetails "Value error" m), true⟩
            | FuncOutcome.raiseHTTPException c d =>
              ⟨HandlerResult.endureException c (Value.obj [("error", Value.str d)]), true⟩
            | FuncOutcome.raiseEndureException c o =>
              ⟨HandlerResult.endureException c o, true⟩
            | FuncOutcome.raiseRequestError _ => ⟨HandlerResult.uncaughtAttributeError, true⟩
            | FuncOutcome.raiseOther m =>
              ⟨HandlerResult.endureException 500 (errorDetails "Internal server error" m), true⟩
    | _ =>
      ⟨HandlerResult.endureException 400
        (Value.obj [("error", Value.str "Request body must be a JSON object")]), false⟩

/-! ## Service registry (src/app/_internal/service_registry.py) -/

/-- The `_services` dict of `ServiceRegistry`, with each workflow
represented by its name (the only field the registration logic reads). -/
abbrev Registry := List (String × List String)

/-- The two `ValueError` reasons `register_workflow` can raise for the
arguments the claims concern. -/
inductive RegisterError where
  | invalidServiceName
  | duplicateWorkflow
deriving Repr, DecidableEq

/-- Replacement of the list stored under an existing key, modelling the
in-place `self._services[service_name].append(workflow)`. -/
def setEntry (reg : Registry) (k : String) (v : List String) : Registry :=
  reg.map (fun p => if p.1 = k then (k, v) else p)

/-- The `if service_name not in self._services: self._services[service_name] = []`
step: create the (empty) service entry on first use. -/
def ensureService (reg : Registry) (s : String) : Registry :=
  if (List.lookup s reg).isNone then reg ++ [(s, [])] else reg

/-- Shallow embedding of `ServiceRegistry.register_workflow`
(src/app/_internal/service_registry.py lines 46-74).  The returned
registry is the post-state even when an error is raised, mirroring
mutation in Python; the workflow-instance validity check is vacuous here
because the embedding types workflows as names. -/
def register_workflow (reg : Registry) (service_name workflow_name : String) :
    Registry × Option RegisterError :=
  if service_name = "" then (reg, some RegisterError.invalidServiceName)
  else
    let reg1 := ensureService reg service_name
    let ws := (List.lookup service_name reg1).getD []
    if workflow_name ∈ ws then (reg1, some RegisterError.duplicateWorkflow)
    else (setEntry reg1 service_name (ws ++ [workflow_name]), none)

/-- A sequence of registrations applied to the initially empty registry
(the post-state of each call is kept, raised or not, as in Python). -/
def applyOps (ops : List (String × String)) : Registry :=
  ops.foldl (fun reg op => (register_workflow reg op.1 op.2).1) []

/-- All `(service_name, workflow_name)` pairs registered. -/
def registryPairs (reg : Registry) : List (String × String) :=
  reg.flatMap (fun p => p.2.map (fun w => (p.1, w)))

/-! ## Concrete scenarios used by counterexamples and witnesses -/

/-- Engine answers STARTED with 208 and a payload whose `output` is the
number 0 (a falsy but present value). -/
def env208zero : ActionEnv :=
  { startedOutcome := SendOutcome.ok ⟨208, [("output", Value.int 0)]⟩
    act := fun _ => ActOutcome.ok Value.null
    failedOutcome := fun _ => SendOutcome.ok ⟨200, []⟩
    completedOutcome := SendOutcome.ok ⟨200, []⟩
    now := fun _ => 0 }

/-- Engine answers STARTED with 208 and a payload whose `output` is a
non-empty map. -/
def env208map : ActionEnv :=
  { env208zero with
    startedOutcome := SendOutcome.ok ⟨208, [("output", Value.obj [("result", Value.int 42)])]⟩ }

/-- Action always raises a generic exception; engine acknowledges STARTED
with 201 and answers the FAILED log with 409. -/
def env409 : ActionEnv :=
  { startedOutcome := SendOutcome.ok ⟨201, []⟩
    act := fun _ => ActOutcome.raiseOther "boom"
    failedOutcome := fun _ => SendOutcome.ok ⟨409, []⟩
    completedOutcome := SendOutcome.ok ⟨200, []⟩
    now := fun _ => 0 }

/-- Like `env409` but the engine answers the FAILED log with 400. -/
def env400 : ActionEnv :=
  { env409 with failedOutcome := fun _ => SendOutcome.ok ⟨400, []⟩ }

/-- Action raises a generic exception on attempt 0 and succeeds on attempt
1; the engine answers the FAILED log with status 503 and a `retry_at` 5
seconds in the past (now is 10). -/
def env503retry : ActionEnv :=
  { startedOutcome := SendOutcome.ok ⟨200, []⟩
    act := fun k => if k = 0 then ActOutcome.raiseOther "boom" else ActOutcome.ok (Value.str "done")
    failedOutcome := fun _ => SendOutcome.ok ⟨503, [("retry_at", Value.int 5)]⟩
    completedOutcome := SendOutcome.ok ⟨200, []⟩
    now := fun _ => 10 }

/-- Action raises a generic exception; the engine answers the FAILED log
with 200 and `retry_at = 0`, a unix time far in the past (now is 100). -/
def envRetryZero : ActionEnv :=
  { env503retry with
    failedOutcome := fun _ => SendOutcome.ok ⟨200, [("retry_at", Value.int 0)]⟩
    now := fun _ => 100 }

/-- Like `env503retry` with a 200 FAILED acknowledgment carrying
`retry_at = 5`, in the past of now = 10. -/
def env200retryPast : ActionEnv :=
  { env503retry with
    failedOutcome := fun _ => SendOutcome.ok ⟨200, [("retry_at", Value.int 5)]⟩ }

/-- Like `env503retry` with a 200 FAILED acknowledgment carrying no
`retry_at` key at all. -/
def env200noRetryAt : ActionEnv :=
  { env503retry with failedOutcome := fun _ => SendOutcome.ok ⟨200, []⟩ }

/-- Action raises a `requests.RequestException`; engine acknowledged
STARTED with 200. -/
def envReqErr : ActionEnv :=
  { startedOutcome := SendOutcome.ok ⟨200, []⟩
    act := fun _ => ActOutcome.raiseRequestError "engine unreachable"
    failedOutcome := fun _ => SendOutcome.ok ⟨200, []⟩
    completedOutcome := SendOutcome.ok ⟨200, []⟩
    now := fun _ => 0 }

/-- Action raises a ValueError; engine acknowledges STARTED with 201 and
the FAILED log with 200. -/
def envValErr : ActionEnv :=
  { envReqErr with
    startedOutcome := SendOutcome.ok ⟨201, []⟩
    act := fun _ => ActOutcome.raiseValueError "bad input" }

/-- Action succeeds; the engine acknowledges STARTED with 201 and answers
the COMPLETED log with an error status 500. -/
def envCompleted500 : ActionEnv :=
  { startedOutcome := SendOutcome.ok ⟨201, []⟩
    act := fun _ => ActOutcome.ok (Value.str "done")
    failedOutcome := fun _ => SendOutcome.ok ⟨200, []⟩
    completedOutcome := SendOutcome.ok ⟨500, [("note", Value.str "ignored")]⟩
    now := fun _ => 0 }

/-- An input annotation `OrderInput` (a pydantic model) whose constructor
rejects the request map with a validation message. -/
def kindOrderInput : InputTypeKind :=
  InputTypeKind.recordType "OrderInput"
    (fun _ => ConvertOutcome.raiseError "field order_id is required")

/-- A request whose body is a JSON object with both required fields and a
map input. -/
def bodyOk : RequestBody :=
  RequestBody.json
    (Value.obj [("execution_id", Value.str "e1"), ("input", Value.obj [("x", Value.int 1)])])

/-- Handler oracle for the conversion-failure scenario: engine reachable,
user function would succeed if ever invoked. -/
def henvConvert : HandlerEnv :=
  { body := bodyOk
    mark := MarkOutcome.ok 200
    func := fun _ => FuncOutcome.ok (Value.str "unused") }

/-- Handler oracle for the unreachable-engine scenario:
`mark_execution_as_running` raises a transport `requests.ConnectionError`. -/
def henvMarkDown : HandlerEnv :=
  { henvConvert with mark := MarkOutcome.raiseRequestError "connection refused" }

/-- Well-formedness of the registry dict: service names are distinct (it
is a dict) and each service holds distinct workflow names. -/
def registryWF (reg : Registry) : Prop :=
  (reg.map Prod.fst).Nodup ∧ ∀ p ∈ reg, p.2.Nodup

/-- The shape of the logs one loop iteration appends: nothing or one
FAILED log when the iteration ends the call, exactly one FAILED log when
it continues, one COMPLETED log when the action succeeded. -/
def stepShape : StepOut → Prop
  | StepOut.done _ newLogs =>
      newLogs = [] ∨ (∃ m, newLogs = [failedLog m]) ∨ ∃ v, newLogs = [completedLog v]
  | StepOut.retry newLogs _ => ∃ m, newLogs = [failedLog m]

/-! ## Theorems -/

/-- Unfolding of one loop iteration that ends the call. -/
theorem runAttempts_done (env : ActionEnv) (fuel k : Nat) (logs : List Log)
    (sleeps : List Int) (res : ExecResult) (newLogs : List Log)
    (h : attemptStep env k = StepOut.done res newLogs) :
    runAttempts env (fuel + 1) k logs sleeps = ⟨res, logs ++ newLogs, sleeps, k + 1⟩ := by
  simp [runAttempts, h]

/-- Unfolding of one loop iteration that continues with the next attempt. -/
theorem runAttempts_retry (env : ActionEnv) (fuel k : Nat) (logs : List Log)
    (sleeps : List Int) (newLogs : List Log) (sl : Option Int)
    (h : attemptStep env k = StepOut.retry newLogs sl) :
    runAttempts env (fuel + 1) k logs sleeps
      = runAttempts env fuel (k + 1) (logs ++ newLogs) (sleeps ++ sl.toList) := by
  simp [runAttempts, h]

/-- Every loop iteration appends logs of the stated shape. -/
theorem stepShape_attemptStep (env : ActionEnv) (k : Nat) :
    stepShape (attemptStep env k) := by
  unfold attemptStep
  cases env.act k with
  | ok v => cases env.completedOutcome <;> simp [stepShape]
  | raiseValueError m => cases env.failedOutcome k <;> simp [stepShape]
  | raiseRequestError m => simp [stepShape]
  | raiseOther m =>
    cases env.failedOutcome k with
    | raiseRequestError m2 => simp [stepShape]
    | raiseValueError m2 => simp [stepShape]
    | ok r =>
      dsimp only
      split
      · split <;> simp [stepShape]
      · cases hg : getKey r.payload "retry_at" with
        | none => simp [stepShape]
        | some v =>
          by_cases ht : v.truthy
          · cases hat : v.asTime with
            | none => simp [stepShape, ht, hat]
            | some t => by_cases hs : t - env.now k > 0 <;> simp [stepShape, ht, hat, hs]
          · simp [stepShape, ht]

/-- The loop only ever appends FAILED logs followed by at most one final
COMPLETED log. -/
theorem runAttempts_shape (env : ActionEnv) :
    ∀ (fuel k : Nat) (logs : List Log) (sleeps : List Int),
      ∃ mid tail,
        (runAttempts env fuel k logs sleeps).logs = logs ++ mid ++ tail ∧
        (∀ l ∈ mid, l.status = LogStatus.FAILED) ∧
        (tail = [] ∨ ∃ v, tail = [completedLog v]) := by
  intro fuel
  induction fuel with
  | zero =>
    intro k logs sleeps
    exact ⟨[], [], by simp [runAttempts], by simp, Or.inl rfl⟩
  | succ n ih =>
    intro k logs sleeps
    have hshape := stepShape_attemptStep env k
    cases hstep : attemptStep env k with
    | done res newLogs =>
      rw [hstep] at hshape
      simp only [stepShape] at hshape
      rw [runAttempts_done env n k logs sleeps res newLogs hstep]
      rcases hshape with h | ⟨m, h⟩ | ⟨v, h⟩
      · subst h; exact ⟨[], [], by simp, by simp, Or.inl rfl⟩
      · subst h
        exact ⟨[failedLog m], [], by simp, by simp [failedLog], Or.inl rfl⟩
      · subst h
        exact ⟨[], [completedLog v], by simp, by simp, Or.inr ⟨v, rfl⟩⟩
    | retry newLogs sl =>
      rw [hstep] at hshape
      simp only [stepShape] at hshape
      obtain ⟨m, h⟩ := hshape
      subst h
      rw [runAttempts_retry env n k logs sleeps _ _ hstep]
      obtain ⟨mid, tail, h1, h2, h3⟩ := ih (k + 1) (logs ++ [failedLog m]) (sleeps ++ sl.toList)
      refine ⟨failedLog m :: mid, tail, ?_, ?_, h3⟩
      · simpa [List.append_assoc] using h1
      · intro l hl
        rcases List.mem_cons.mp hl with h | h
        · subst h; simp [failedLog]
        · exact h2 l h

/-- Counting statuses in a trace of the protocol shape. -/
theorem protocol_counts (l0 : Log) (mid tail : List Log)
    (h0 : l0.status = LogStatus.STARTED)
    (hmid : ∀ l ∈ mid, l.status = LogStatus.FAILED)
    (htail : tail = [] ∨ ∃ v, tail = [completedLog v]) :
    (l0 :: (mid ++ tail)).countP (fun l => l.status == LogStatus.STARTED) = 1 ∧
    (l0 :: (mid ++ tail)).countP (fun l => l.status == LogStatus.COMPLETED) ≤ 1 := by
  have hmidS : mid.countP (fun l => l.status == LogStatus.STARTED) = 0 :=
    List.countP_eq_zero.mpr (fun l hl => by simp [hmid l hl])
  have hmidC : mid.countP (fun l => l.status == LogStatus.COMPLETED) = 0 :=
    List.countP_eq_zero.mpr (fun l hl => by simp [hmid l hl])
  rcases htail with h | ⟨v, h⟩ <;> subst h <;>
    simp [List.countP_cons, List.countP_append, hmidS, hmidC, h0, completedLog]

/-- Claim C1: for every `execute_action` call, the sequence of logs passed
to `send_log` starts with exactly one STARTED log, continues with zero or
more FAILED logs and ends with at most one COMPLETED log; a COMPLETED log
is never followed by a FAILED log (it can only be the last log), and a
COMPLETED log is sent only if the engine answered the STARTED log with
status 200 or 201. -/
theorem execute_action_log_protocol (env : ActionEnv) (input_data : Value)
    (max_retries : Nat) (mech : RetryMechanism) (fuel : Nat) :
    ∃ mid tail,
      (execute_action env input_data max_retries mech fuel).logs
        = startedLog input_data max_retries mech :: (mid ++ tail) ∧
      (∀ l ∈ mid, l.status = LogStatus.FAILED) ∧
      (tail = [] ∨ ∃ v, tail = [completedLog v]) ∧
      (execute_action env input_data max_retries mech fuel).logs.countP
          (fun l => l.status == LogStatus.STARTED) = 1 ∧
      (execute_action env input_data max_retries mech fuel).logs.countP
          (fun l => l.status == LogStatus.COMPLETED) ≤ 1 ∧
      (tail ≠ [] → ∃ r, env.startedOutcome = SendOutcome.ok r ∧
          (r.status_code = 200 ∨ r.status_code = 201)) := by
  have hstart : (startedLog input_data max_retries mech).status = LogStatus.STARTED := rfl
  unfold execute_action
  cases hs : env.startedOutcome with
  | raiseRequestError m =>
    refine ⟨[], [], by simp, by simp, Or.inl rfl, ?_, ?_, by simp⟩ <;>
      simp [List.countP_cons, hstart]
  | raiseValueError m =>
    refine ⟨[], [], by simp, by simp, Or.inl rfl, ?_, ?_, by simp⟩ <;>
      simp [List.countP_cons, hstart]
  | ok r =>
    by_cases h200 : r.status_code = 201 ∨ r.status_code = 200
    · simp only [h200, if_true]
      obtain ⟨mid, tail, h1, h2, h3⟩ :=
        runAttempts_shape env fuel 0 [startedLog input_data max_retries mech] []
      have h1' : (runAttempts env fuel 0 [startedLog input_data max_retries mech] []).logs
          = startedLog input_data max_retries mech :: (mid ++ tail) := by
        simpa using h1
      obtain ⟨hc1, hc2⟩ := protocol_counts _ mid tail hstart h2 h3
      refine ⟨mid, tail, h1', h2, h3, ?_, ?_, ?_⟩
      · rw [h1']; exact hc1
      · rw [h1']; exact hc2
      · intro _; exact ⟨r, rfl, h200.symm⟩
    · simp only [h200, if_false]
      by_cases h208 : r.status_code = 208 <;>
        [skip; skip] <;>
        simp only [h208, if_true, if_false] <;>
        refine ⟨[], [], by simp, by simp, Or.inl rfl, ?_, ?_, by simp⟩ <;>
        simp [List.countP_cons, hstart]

/-- Claim C2 (amended): when the engine answers the STARTED log with 208,
`execute_action` returns the value at key `output` of the response payload
when that value is truthy, and the empty map when the key is absent or its
value is falsy; the action callable is never invoked (`attempts = 0`) and
no further log is sent. -/
theorem execute_action_cached_truthy (env : ActionEnv) (input_data : Value)
    (max_retries : Nat) (mech : RetryMechanism) (fuel : Nat) (r : Response)
    (h : env.startedOutcome = SendOutcome.ok r) (h208 : r.status_code = 208) :
    execute_action env input_data max_retries mech fuel
      = ⟨ExecResult.ret
          (match getKey r.payload "output" with
           | some v => if v.truthy then v else Value.obj []
           | none => Value.obj []),
         [startedLog input_data max_retries mech], [], 0⟩ := by
  unfold execute_action
  rw [h]
  simp [h208]

/-- Witness for `execute_action_cached_truthy` at a truthy cached output. -/
theorem execute_action_cached_truthy_witness :
    execute_action env208map Value.null 0 RetryMechanism.CONSTANT 3
      = ⟨ExecResult.ret (Value.obj [("result", Value.int 42)]),
         [startedLog Value.null 0 RetryMechanism.CONSTANT], [], 0⟩ := by
  have h := execute_action_cached_truthy env208map Value.null 0 RetryMechanism.CONSTANT 3
    ⟨208, [("output", Value.obj [("result", Value.int 42)])]⟩ rfl rfl
  simpa using h

/-- Counterexample to claim C2 as stated: with a 208 payload carrying
`output = 0` (present but falsy), `execute_action` returns the empty map,
not the stored value that the claim promises. -/
theorem execute_action_cached_claim_cex :
    (execute_action env208zero Value.null 0 RetryMechanism.CONSTANT 1).result
      = ExecResult.ret (Value.obj [])
    ∧ cachedOutputClaimed ⟨208, [("output", Value.int 0)]⟩ = Value.int 0
    ∧ ExecResult.ret (Value.obj []) ≠ ExecResult.ret (Value.int 0) := by
  refine ⟨rfl, rfl, fun h => ?_⟩
  exact Value.noConfusion (ExecResult.ret.inj h)

/-- Claim C3 (amended): when the action raises a generic exception on the
first attempt and the engine answers the FAILED log with 400 or 404,
`execute_action` raises `EndureException(500)` with output
`{"error": "Action failed after reaching max retries"}`; with 409 it
raises `EndureException(409)` with output
`{"error": "Execution Paused or Terminated"}` (note the capitalisation in
the source); in both cases the action is not retried (`attempts = 1`). -/
theorem execute_action_engine_fatal (env : ActionEnv) (input_data : Value)
    (max_retries : Nat) (mech : RetryMechanism) (fuel : Nat) (r0 r : Response) (m : String)
    (hs : env.startedOutcome = SendOutcome.ok r0)
    (h200 : r0.status_code = 201 ∨ r0.status_code = 200)
    (hact : env.act 0 = ActOutcome.raiseOther m)
    (hf : env.failedOutcome 0 = SendOutcome.ok r) :
    (r.status_code = 400 ∨ r.status_code = 404 →
      execute_action env input_data max_retries mech (fuel + 1)
        = ⟨ExecResult.endureException 500 (errorOutput "Action failed after reaching max retries"),
           [startedLog input_data max_retries mech, failedLog m], [], 1⟩) ∧
    (r.status_code = 409 →
      execute_action env input_data max_retries mech (fuel + 1)
        = ⟨ExecResult.endureException 409 (errorOutput "Execution Paused or Terminated"),
           [startedLog input_data max_retries mech, failedLog m], [], 1⟩) := by
  constructor
  · intro hst
    have hstep : attemptStep env 0
        = StepOut.done
            (ExecResult.endureException 500 (errorOutput "Action failed after reaching max retries"))
            [failedLog m] := by
      rcases hst with h | h <;> simp [attemptStep, hact, hf, h]
    unfold execute_action
    rw [hs]
    simp only [h200, if_true]
    rw [runAttempts_done env fuel 0 _ _ _ _ hstep]
    simp
  · intro hst
    have hstep : attemptStep env 0
        = StepOut.done
            (ExecResult.endureException 409 (errorOutput "Execution Paused or Terminated"))
            [failedLog m] := by
      simp [attemptStep, hact, hf, hst]
    unfold execute_action
    rw [hs]
    simp only [h200, if_true]
    rw [runAttempts_done env fuel 0 _ _ _ _ hstep]
    simp

/-- Witness for `execute_action_engine_fatal` at a 400 and at a 409
FAILED acknowledgment. -/
theorem execute_action_engine_fatal_witness :
    execute_action env400 Value.null 2 RetryMechanism.LINEAR 3
      = ⟨ExecResult.endureException 500 (errorOutput "Action failed after reaching max retries"),
         [startedLog Value.null 2 RetryMechanism.LINEAR, failedLog "boom"], [], 1⟩
    ∧ execute_action env409 Value.null 2 RetryMechanism.LINEAR 3
      = ⟨ExecResult.endureException 409 (errorOutput "Execution Paused or Terminated"),
         [startedLog Value.null 2 RetryMechanism.LINEAR, failedLog "boom"], [], 1⟩ := by
  constructor
  · exact (execute_action_engine_fatal env400 Value.null 2 RetryMechanism.LINEAR 2
      ⟨201, []⟩ ⟨400, []⟩ "boom" rfl (Or.inl rfl) rfl rfl).1 (Or.inl rfl)
  · exact (execute_action_engine_fatal env409 Value.null 2 RetryMechanism.LINEAR 2
      ⟨201, []⟩ ⟨409, []⟩ "boom" rfl (Or.inl rfl) rfl rfl).2 rfl

/-- Counterexample to claim C3 as stated: the 409 output message in the
code is capitalised `Execution Paused or Terminated`, which is not the
string `Execution paused or terminated` the claim quotes. -/
theorem execute_action_409_message_cex :
    (execute_action env409 Value.null 2 RetryMechanism.LINEAR 1).result
      = ExecResult.endureException 409 (errorOutput "Execution Paused or Terminated")
    ∧ errorOutput "Execution Paused or Terminated"
        ≠ errorOutput "Execution paused or terminated" := by
  refine ⟨rfl, ?_⟩
  simp [errorOutput]

/-- Claim C10: when the action succeeds on the first attempt,
`execute_action` returns the action result whatever envelope `r` the
engine answers the COMPLETED log with: the acknowledgment is never
inspected, so an error status in `r` neither changes the returned value
nor raises. -/
theorem execute_action_ignores_completed_ack (env : ActionEnv) (input_data : Value)
    (max_retries : Nat) (mech : RetryMechanism) (fuel : Nat) (r0 r : Response) (v : Value)
    (hs : env.startedOutcome = SendOutcome.ok r0)
    (h200 : r0.status_code = 201 ∨ r0.status_code = 200)
    (hact : env.act 0 = ActOutcome.ok v)
    (hc : env.completedOutcome = SendOutcome.ok r) :
    execute_action env input_data max_retries mech (fuel + 1)
      = ⟨ExecResult.ret v, [startedLog input_data max_retries mech, completedLog v], [], 1⟩ := by
  have hstep : attemptStep env 0 = StepOut.done (ExecResult.ret v) [completedLog v] := by
    simp [attemptStep, hact, hc]
  unfold execute_action
  rw [hs]
  simp only [h200, if_true]
  rw [runAttempts_done env fuel 0 _ _ _ _ hstep]
  simp

/-- After a 200/201 STARTED acknowledgment the call is the retry loop. -/
theorem execute_action_start200 (env : ActionEnv) (input_data : Value)
    (max_retries : Nat) (mech : RetryMechanism) (fuel : Nat) (r0 : Response)
    (hs : env.startedOutcome = SendOutcome.ok r0)
    (h200 : r0.status_code = 201 ∨ r0.status_code = 200) :
    execute_action env input_data max_retries mech fuel
      = runAttempts env fuel 0 [startedLog input_data max_retries mech] [] := by
  unfold execute_action
  rw [hs]
  simp [h200]

/-- The attempt counter never moves below its starting point. -/
theorem runAttempts_attempts_ge (env : ActionEnv) :
    ∀ (fuel k : Nat) (logs : List Log) (sleeps : List Int),
      k ≤ (runAttempts env fuel k logs sleeps).attempts := by
  intro fuel
  induction fuel with
  | zero => intro k logs sleeps; simp [runAttempts]
  | succ n ih =>
    intro k logs sleeps
    cases hstep : attemptStep env k with
    | done res newLogs =>
      rw [runAttempts_done env n k logs sleeps res newLogs hstep]
      exact Nat.le_succ k
    | retry newLogs sl =>
      rw [runAttempts_retry env n k logs sleeps _ _ hstep]
      exact le_trans (Nat.le_succ k) (ih (k + 1) _ _)

/-- With fuel left, the loop performs at least one more attempt. -/
theorem runAttempts_attempts_succ_ge (env : ActionEnv) (fuel k : Nat)
    (logs : List Log) (sleeps : List Int) :
    k + 1 ≤ (runAttempts env (fuel + 1) k logs sleeps).attempts := by
  cases hstep : attemptStep env k with
  | done res newLogs =>
    rw [runAttempts_done env fuel k logs sleeps res newLogs hstep]
  | retry newLogs sl =>
    rw [runAttempts_retry env fuel k logs sleeps _ _ hstep]
    exact runAttempts_attempts_ge env fuel (k + 1) _ _

/-- Claim C4 (amended): after the FAILED log of the first attempt, the
loop ends without re-running the action exactly when the engine's answer
has status 400, 404 or 409 (an EndureException is raised) or carries no
truthy `retry_at` (a RuntimeError is raised); an answer with any other
status code — 200 or not — whose payload carries a nonzero integer
`retry_at` makes the loop invoke the action again. -/
theorem execute_action_failed_ack_termination (env : ActionEnv) (input_data : Value)
    (max_retries : Nat) (mech : RetryMechanism) (fuel : Nat) (r0 r : Response)
    (m : String) (t : Int)
    (hs : env.startedOutcome = SendOutcome.ok r0)
    (h200 : r0.status_code = 201 ∨ r0.status_code = 200)
    (hact : env.act 0 = ActOutcome.raiseOther m)
    (hf : env.failedOutcome 0 = SendOutcome.ok r) :
    (r.status_code = 400 ∨ r.status_code = 404 ∨ r.status_code = 409 →
      (execute_action env input_data max_retries mech (fuel + 1)).attempts = 1 ∧
      ∃ c o, (execute_action env input_data max_retries mech (fuel + 1)).result
        = ExecResult.endureException c o) ∧
    (¬(r.status_code = 400 ∨ r.status_code = 404 ∨ r.status_code = 409) →
      getKey r.payload "retry_at" = none →
      (execute_action env input_data max_retries mech (fuel + 1)).attempts = 1 ∧
      (execute_action env input_data max_retries mech (fuel + 1)).result
        = ExecResult.runtimeError) ∧
    (¬(r.status_code = 400 ∨ r.status_code = 404 ∨ r.status_code = 409) →
      getKey r.payload "retry_at" = some (Value.int t) → t ≠ 0 →
      2 ≤ (execute_action env input_data max_retries mech (fuel + 1 + 1)).attempts) := by
  refine ⟨?_, ?_, ?_⟩
  · intro hst
    have h1 := execute_action_start200 env input_data max_retries mech (fuel + 1) r0 hs h200
    rcases hst with h | h | h
    · have hstep : attemptStep env 0
          = StepOut.done
              (ExecResult.endureException 500 (errorOutput "Action failed after reaching max retries"))
              [failedLog m] := by
        simp [attemptStep, hact, hf, h]
      rw [h1, runAttempts_done env fuel 0 _ _ _ _ hstep]
      exact ⟨rfl, 500, errorOutput "Action failed after reaching max retries", rfl⟩
    · have hstep : attemptStep env 0
          = StepOut.done
              (ExecResult.endureException 500 (errorOutput "Action failed after reaching max retries"))
              [failedLog m] := by
        simp [attemptStep, hact, hf, h]
      rw [h1, runAttempts_done env fuel 0 _ _ _ _ hstep]
      exact ⟨rfl, 500, errorOutput "Action failed after reaching max retries", rfl⟩
    · have hstep : attemptStep env 0
          = StepOut.done
              (ExecResult.endureException 409 (errorOutput "Execution Paused or Terminated"))
              [failedLog m] := by
        simp [attemptStep, hact, hf, h]
      rw [h1, runAttempts_done env fuel 0 _ _ _ _ hstep]
      exact ⟨rfl, 409, errorOutput "Execution Paused or Terminated", rfl⟩
  · intro hnf hna
    have h1 := execute_action_start200 env input_data max_retries mech (fuel + 1) r0 hs h200
    have hstep : attemptStep env 0 = StepOut.done ExecResult.runtimeError [failedLog m] := by
      simp [attemptStep, hact, hf, hnf, hna]
    rw [h1, runAttempts_done env fuel 0 _ _ _ _ hstep]
    exact ⟨rfl, rfl⟩
  · intro hnf hra hnz
    have h1 := execute_action_start200 env input_data max_retries mech (fuel + 1 + 1) r0 hs h200
    by_cases hpos : t - env.now 0 > 0
    · have hstep : attemptStep env 0
          = StepOut.retry [failedLog m] (some (t - env.now 0)) := by
        simp [attemptStep, hact, hf, hnf, hra, Value.truthy, Value.asTime, hnz, hpos]
      rw [h1, runAttempts_retry env (fuel + 1) 0 _ _ _ _ hstep]
      exact runAttempts_attempts_succ_ge env fuel 1 _ _
    · have hstep : attemptStep env 0 = StepOut.retry [failedLog m] none := by
        simp [attemptStep, hact, hf, hnf, hra, Value.truthy, Value.asTime, hnz, hpos]
      rw [h1, runAttempts_retry env (fuel + 1) 0 _ _ _ _ hstep]
      exact runAttempts_attempts_succ_ge env fuel 1 _ _

/-- Witness for `execute_action_failed_ack_termination`: a 409 answer
ends the loop after one attempt; a 503 answer carrying `retry_at` makes
the loop run the action a second time. -/
theorem execute_action_failed_ack_termination_witness :
    ((execute_action env409 Value.null 2 RetryMechanism.LINEAR 3).attempts = 1 ∧
      ∃ c o, (execute_action env409 Value.null 2 RetryMechanism.LINEAR 3).result
        = ExecResult.endureException c o) ∧
    2 ≤ (execute_action env503retry Value.null 3 RetryMechanism.LINEAR 5).attempts := by
  constructor
  · exact (execute_action_failed_ack_termination env409 Value.null 2 RetryMechanism.LINEAR 2
      ⟨201, []⟩ ⟨409, []⟩ "boom" 1 rfl (Or.inl rfl) rfl rfl).1 (Or.inr (Or.inr rfl))
  · exact (execute_action_failed_ack_termination env503retry Value.null 3 RetryMechanism.LINEAR 3
      ⟨200, []⟩ ⟨503, [("retry_at", Value.int 5)]⟩ "boom" 5 rfl (Or.inr rfl) rfl
      rfl).2.2 (by decide) rfl (by decide)

/-- Counterexample to claim C4 as stated: the engine answers the FAILED
log with status 503 (not 200) and a `retry_at`, and the loop re-runs the
action (two invocations) instead of terminating. -/
theorem execute_action_non200_retry_cex :
    (execute_action env503retry Value.null 3 RetryMechanism.LINEAR 5).attempts = 2
    ∧ (execute_action env503retry Value.null 3 RetryMechanism.LINEAR 5).result
        = ExecResult.ret (Value.str "done")
    ∧ env503retry.failedOutcome 0 = SendOutcome.ok ⟨503, [("retry_at", Value.int 5)]⟩
    ∧ (503 : Nat) ≠ 200 := ⟨rfl, rfl, rfl, by decide⟩

/-- Claim C5 (amended): for a retryable FAILED acknowledgment (status not
400/404/409), a nonzero integer `retry_at` at or before the current time
makes the loop proceed at once to the next attempt with no sleep
recorded; an absent `retry_at` ends the call with a RuntimeError (so does
a falsy one such as 0, see the counterexample). -/
theorem execute_action_retry_at_rules (env : ActionEnv) (input_data : Value)
    (max_retries : Nat) (mech : RetryMechanism) (fuel : Nat) (r0 r : Response)
    (m : String) (t : Int)
    (hs : env.startedOutcome = SendOutcome.ok r0)
    (h200 : r0.status_code = 201 ∨ r0.status_code = 200)
    (hact : env.act 0 = ActOutcome.raiseOther m)
    (hf : env.failedOutcome 0 = SendOutcome.ok r)
    (hnf : ¬(r.status_code = 400 ∨ r.status_code = 404 ∨ r.status_code = 409)) :
    (getKey r.payload "retry_at" = some (Value.int t) → t ≠ 0 → t - env.now 0 ≤ 0 →
      execute_action env input_data max_retries mech (fuel + 1)
        = runAttempts env fuel 1 [startedLog input_data max_retries mech, failedLog m] []) ∧
    (getKey r.payload "retry_at" = none →
      execute_action env input_data max_retries mech (fuel + 1)
        = ⟨ExecResult.runtimeError,
           [startedLog input_data max_retries mech, failedLog m], [], 1⟩) := by
  constructor
  · intro hra hnz hpast
    have h1 := execute_action_start200 env input_data max_retries mech (fuel + 1) r0 hs h200
    have hnpos : ¬(t - env.now 0 > 0) := by omega
    have hstep : attemptStep env 0 = StepOut.retry [failedLog m] none := by
      simp [attemptStep, hact, hf, hnf, hra, Value.truthy, Value.asTime, hnz, hnpos]
    rw [h1, runAttempts_retry env fuel 0 _ _ _ _ hstep]
    rfl
  · intro hna
    have h1 := execute_action_start200 env input_data max_retries mech (fuel + 1) r0 hs h200
    have hstep : attemptStep env 0 = StepOut.done ExecResult.runtimeError [failedLog m] := by
      simp [attemptStep, hact, hf, hnf, hna]
    rw [h1, runAttempts_done env fuel 0 _ _ _ _ hstep]
    simp

/-- Witness for `execute_action_retry_at_rules`: a past `retry_at = 5`
(now 10) proceeds straight to attempt 1 with no sleep; an absent
`retry_at` raises a RuntimeError. -/
theorem execute_action_retry_at_rules_witness :
    execute_action env200retryPast Value.null 3 RetryMechanism.LINEAR 5
      = runAttempts env200retryPast 4 1
          [startedLog Value.null 3 RetryMechanism.LINEAR, failedLog "boom"] []
    ∧ execute_action env200noRetryAt Value.null 3 RetryMechanism.LINEAR 5
      = ⟨ExecResult.runtimeError,
         [startedLog Value.null 3 RetryMechanism.LINEAR, failedLog "boom"], [], 1⟩ := by
  constructor
  · exact (execute_action_retry_at_rules env200retryPast Value.null 3 RetryMechanism.LINEAR 4
      ⟨200, []⟩ ⟨200, [("retry_at", Value.int 5)]⟩ "boom" 5 rfl (Or.inr rfl) rfl rfl
      (by decide)).1 rfl (by decide) (by decide)
  · exact (execute_action_retry_at_rules env200noRetryAt Value.null 3 RetryMechanism.LINEAR 4
      ⟨200, []⟩ ⟨200, []⟩ "boom" 0 rfl (Or.inr rfl) rfl rfl (by decide)).2 rfl

/-- Counterexample to claim C5 as stated: `retry_at = 0` is a unix time in
the past (now is 100), yet `execute_action` raises a RuntimeError after
one attempt instead of re-running the action, because Python's
`if retry_at_unix:` treats 0 as absent. -/
theorem execute_action_retry_at_zero_cex :
    (execute_action envRetryZero Value.null 3 RetryMechanism.LINEAR 5).result
      = ExecResult.runtimeError
    ∧ (execute_action envRetryZero Value.null 3 RetryMechanism.LINEAR 5).attempts = 1
    ∧ envRetryZero.failedOutcome 0 = SendOutcome.ok ⟨200, [("retry_at", Value.int 0)]⟩
    ∧ (0 : Int) < envRetryZero.now 0 := ⟨rfl, rfl, rfl, by decide⟩

/-- Claim C6 (amended): a ValueError or pydantic ValidationError raised by
the action is paired with exactly one FAILED log and then propagates
unchanged without the action being re-run; a `requests.RequestException`
raised by the action propagates unchanged without the action being
re-run, but no FAILED log is sent for it. -/
theorem execute_action_nonretryable_exceptions (env : ActionEnv) (input_data : Value)
    (max_retries : Nat) (mech : RetryMechanism) (fuel : Nat) (r0 rf : Response) (m : String)
    (hs : env.startedOutcome = SendOutcome.ok r0)
    (h200 : r0.status_code = 201 ∨ r0.status_code = 200) :
    (env.act 0 = ActOutcome.raiseValueError m →
      env.failedOutcome 0 = SendOutcome.ok rf →
      execute_action env input_data max_retries mech (fuel + 1)
        = ⟨ExecResult.valueError m,
           [startedLog input_data max_retries mech, failedLog m], [], 1⟩) ∧
    (env.act 0 = ActOutcome.raiseRequestError m →
      execute_action env input_data max_retries mech (fuel + 1)
        = ⟨ExecResult.requestError m, [startedLog input_data max_retries mech], [], 1⟩) := by
  constructor
  · intro hact hf
    have h1 := execute_action_start200 env input_data max_retries mech (fuel + 1) r0 hs h200
    have hstep : attemptStep env 0 = StepOut.done (ExecResult.valueError m) [failedLog m] := by
      simp [attemptStep, hact, hf]
    rw [h1, runAttempts_done env fuel 0 _ _ _ _ hstep]
    simp
  · intro hact
    have h1 := execute_action_start200 env input_data max_retries mech (fuel + 1) r0 hs h200
    have hstep : attemptStep env 0 = StepOut.done (ExecResult.requestError m) [] := by
      simp [attemptStep, hact]
    rw [h1, runAttempts_done env fuel 0 _ _ _ _ hstep]
    simp

/-- Witness for `execute_action_nonretryable_exceptions`: a ValueError is
logged FAILED once and re-raised; a RequestException is re-raised with no
FAILED log. -/
theorem execute_action_nonretryable_exceptions_witness :
    execute_action envValErr Value.null 1 RetryMechanism.CONSTANT 2
      = ⟨ExecResult.valueError "bad input",
         [startedLog Value.null 1 RetryMechanism.CONSTANT, failedLog "bad input"], [], 1⟩
    ∧ execute_action envReqErr Value.null 1 RetryMechanism.CONSTANT 2
      = ⟨ExecResult.requestError "engine unreachable",
         [startedLog Value.null 1 RetryMechanism.CONSTANT], [], 1⟩ := by
  constructor
  · exact (execute_action_nonretryable_exceptions envValErr Value.null 1 RetryMechanism.CONSTANT 1
      ⟨201, []⟩ ⟨200, []⟩ "bad input" rfl (Or.inl rfl)).1 rfl rfl
  · exact (execute_action_nonretryable_exceptions envReqErr Value.null 1 RetryMechanism.CONSTANT 1
      ⟨200, []⟩ ⟨200, []⟩ "engine unreachable" rfl (Or.inr rfl)).2 rfl

/-- Counterexample to claim C6 as stated: when the action raises a
`requests.RequestException`, the exception propagates but no FAILED log
at all is sent to the engine (the claim promised exactly one). -/
theorem execute_action_request_error_no_failed_cex :
    (execute_action envReqErr Value.null 1 RetryMechanism.CONSTANT 2).logs.countP
        (fun l => l.status == LogStatus.FAILED) = 0
    ∧ (execute_action envReqErr Value.null 1 RetryMechanism.CONSTANT 2).result
        = ExecResult.requestError "engine unreachable"
    ∧ (0 : Nat) ≠ 1 := ⟨rfl, rfl, by decide⟩

/-- Witness for `execute_action_ignores_completed_ack` with a 500
acknowledgment of the COMPLETED log. -/
theorem execute_action_ignores_completed_ack_witness :
    execute_action envCompleted500 Value.null 1 RetryMechanism.LINEAR 2
      = ⟨ExecResult.ret (Value.str "done"),
         [startedLog Value.null 1 RetryMechanism.LINEAR, completedLog (Value.str "done")],
         [], 1⟩ :=
  execute_action_ignores_completed_ack envCompleted500 Value.null 1 RetryMechanism.LINEAR 1
    ⟨201, []⟩ ⟨500, [("note", Value.str "ignored")]⟩ (Value.str "done") rfl (Or.inl rfl) rfl rfl

/-- Claim C7 (amended): when the request body is a JSON object with both
required fields, its `input` is a map, the workflow input annotation is a
record type (pydantic model or dataclass) and the constructor rejects the
map, the handler answers with HTTP status 400 and output
`{"error": "Value error", "details": <conversion failure>}`, and the user
function is not invoked.  (`_convert_input` wraps the constructor error
in a plain ValueError, so the handler takes the 400 branch, not the 422
one.) -/
theorem handler_conversion_failure_400 (tn : String)
    (construct : List (String × Value) → ConvertOutcome) (env : HandlerEnv)
    (bodyKvs inputKvs : List (String × Value)) (eid : Value) (c : Nat) (m : String)
    (hbody : env.body = RequestBody.json (Value.obj bodyKvs))
    (heid : getKey bodyKvs "execution_id" = some eid)
    (hin : getKey bodyKvs "input" = some (Value.obj inputKvs))
    (hmark : env.mark = MarkOutcome.ok c)
    (hconv : construct inputKvs = ConvertOutcome.raiseError m) :
    handler (InputTypeKind.recordType tn construct) env
      = ⟨HandlerResult.endureException 400
          (errorDetails "Value error" ("Failed to convert input to " ++ tn ++ ": " ++ m)),
         false⟩ := by
  unfold handler
  rw [hbody]
  simp [heid, hin, hmark, convert_input, hconv]

/-- Witness for `handler_conversion_failure_400` on a concrete request
rejected by the `OrderInput` constructor. -/
theorem handler_conversion_failure_400_witness :
    handler kindOrderInput henvConvert
      = ⟨HandlerResult.endureException 400
          (errorDetails "Value error"
            "Failed to convert input to OrderInput: field order_id is required"),
         false⟩ := by
  have h := handler_conversion_failure_400 "OrderInput"
    (fun _ => ConvertOutcome.raiseError "field order_id is required") henvConvert
    [("execution_id", Value.str "e1"), ("input", Value.obj [("x", Value.int 1)])]
    [("x", Value.int 1)] (Value.str "e1") 200 "field order_id is required"
    rfl rfl rfl rfl rfl
  exact h

/-- Counterexample to claim C7 as stated: the conversion failure is
answered with status 400, not the 422 the claim promises. -/
theorem handler_conversion_failure_status_cex :
    (handler kindOrderInput henvConvert).result
      = HandlerResult.endureException 400
          (errorDetails "Value error"
            "Failed to convert input to OrderInput: field order_id is required")
    ∧ (handler kindOrderInput henvConvert).funcCalled = false
    ∧ (400 : Nat) ≠ 422 := ⟨rfl, rfl, by decide⟩

/-- Claim C8 (code bug): when `mark_execution_as_running` raises a
transport `requests.RequestException`, the user function is indeed not
invoked, but the handler does not answer with the JSON error envelope the
claim describes: the except clause evaluates `re.status_code`, an
attribute a transport `RequestException` does not have, so an
AttributeError escapes the handler uncaught. -/
theorem handler_engine_unreachable_uncaught :
    (handler InputTypeKind.anyType henvMarkDown).result
      = HandlerResult.uncaughtAttributeError
    ∧ (handler InputTypeKind.anyType henvMarkDown).funcCalled = false := ⟨rfl, rfl⟩

/-- A key that `List.lookup` misses heads no entry of the list. -/
theorem lookup_none_not_mem (s : String) :
    ∀ (reg : Registry), List.lookup s reg = none → s ∉ reg.map Prod.fst := by
  intro reg
  induction reg with
  | nil => intro _; simp
  | cons p rest ih =>
    intro h hmem
    rw [List.lookup_cons] at h
    cases hba : (s == p.1) with
    | true =>
      rw [hba] at h
      exact Option.noConfusion h
    | false =>
      rw [hba] at h
      rw [List.map_cons] at hmem
      rcases List.mem_cons.mp hmem with heq | hm
      · rw [heq] at hba
        simp at hba
      · exact ih h hm

/-- A `List.lookup` hit is an entry of the list. -/
theorem mem_of_lookup_eq_some (s : String) (ws : List String) :
    ∀ (reg : Registry), List.lookup s reg = some ws → (s, ws) ∈ reg := by
  intro reg
  induction reg with
  | nil => intro h; simp [List.lookup] at h
  | cons p rest ih =>
    obtain ⟨k, b⟩ := p
    intro h
    rw [List.lookup_cons] at h
    cases hba : (s == k) with
    | true =>
      rw [hba] at h
      have hks : s = k := by simpa using hba
      have hbs : b = ws := by simpa using h
      subst hks
      subst hbs
      exact List.mem_cons_self _ _
    | false =>
      rw [hba] at h
      exact List.mem_cons_of_mem _ (ih h)

/-- `setEntry` keeps the key column unchanged. -/
theorem setEntry_mapFst (k : String) (v : List String) :
    ∀ (reg : Registry), (setEntry reg k v).map Prod.fst = reg.map Prod.fst := by
  intro reg
  induction reg with
  | nil => rfl
  | cons p rest ih =>
    by_cases h : p.1 = k <;> simp [setEntry, h] <;>
      simpa [setEntry] using ih

/-- Entries after `setEntry` are the new entry or old entries. -/
theorem mem_setEntry (k : String) (v : List String) (q : String × List String)
    (reg : Registry) (hq : q ∈ setEntry reg k v) : q = (k, v) ∨ q ∈ reg := by
  unfold setEntry at hq
  obtain ⟨p, hp, heq⟩ := List.mem_map.mp hq
  by_cases h : p.1 = k
  · left
    rw [← heq]
    simp [h]
  · right
    rw [← heq]
    simpa [h] using hp

/-- `ensureService` preserves well-formedness. -/
theorem ensureService_wf (reg : Registry) (s : String) (hwf : registryWF reg) :
    registryWF (ensureService reg s) := by
  unfold ensureService
  by_cases hl : (List.lookup s reg).isNone
  · simp only [hl, if_true]
    constructor
    · rw [List.map_append]
      rw [List.nodup_append]
      refine ⟨hwf.1, by simp, ?_⟩
      intro a ha hb
      simp at hb
      rw [hb] at ha
      exact lookup_none_not_mem s reg (Option.isNone_iff_eq_none.mp hl) ha
    · intro p hp
      rcases List.mem_append.mp hp with h | h
      · exact hwf.2 p h
      · simp at h
        subst h
        simp
  · simp only [hl, if_false]
    exact hwf

/-- `register_workflow` preserves well-formedness of the registry. -/
theorem register_workflow_wf (reg : Registry) (s w : String) (hwf : registryWF reg) :
    registryWF (register_workflow reg s w).1 := by
  unfold register_workflow
  by_cases hs : s = ""
  · simpa [hs] using hwf
  · simp only [hs, if_false]
    have hwf1 : registryWF (ensureService reg s) := ensureService_wf reg s hwf
    by_cases hdup : w ∈ (List.lookup s (ensureService reg s)).getD []
    · simpa [hdup] using hwf1
    · simp only [hdup, if_false]
      constructor
      · rw [setEntry_mapFst]
        exact hwf1.1
      · intro p hp
        rcases mem_setEntry s _ p _ hp with h | h
        · subst h
          rw [List.nodup_append]
          refine ⟨?_, by simp, ?_⟩
          · cases hl : List.lookup s (ensureService reg s) with
            | none => simp [hl]
            | some ws0 =>
              have := hwf1.2 (s, ws0) (mem_of_lookup_eq_some s ws0 _ hl)
              simpa [hl] using this
          · intro a ha hb
            simp at hb
            subst hb
            exact hdup ha
        · exact hwf1.2 p h

/-- A pair drawn from `registryPairs` has its key in the key column. -/
theorem registryPairs_fst_mem (reg : Registry) (x : String × String)
    (hx : x ∈ registryPairs reg) : x.1 ∈ reg.map Prod.fst := by
  unfold registryPairs at hx
  obtain ⟨p, hp, hx2⟩ := List.mem_flatMap.mp hx
  obtain ⟨w, _, heq⟩ := List.mem_map.mp hx2
  refine List.mem_map.mpr ⟨p, hp, ?_⟩
  rw [← heq]

/-- A well-formed registry holds no repeated (service, workflow) pair. -/
theorem registryWF_pairs : ∀ (reg : Registry), registryWF reg → (registryPairs reg).Nodup := by
  intro reg
  induction reg with
  | nil => intro _; simp [registryPairs]
  | cons p rest ih =>
    intro hwf
    have hkeys := hwf.1
    rw [List.map_cons, List.nodup_cons] at hkeys
    have hpairs : registryPairs (p :: rest) = p.2.map (fun w => (p.1, w)) ++ registryPairs rest := by
      simp [registryPairs]
    rw [hpairs, List.nodup_append]
    refine ⟨?_, ?_, ?_⟩
    · exact (hwf.2 p (List.mem_cons_self p rest)).map
        (fun a b hab => by simpa using hab)
    · exact ih ⟨hkeys.2, fun q hq => hwf.2 q (List.mem_cons_of_mem p hq)⟩
    · intro a ha hb
      obtain ⟨w, _, heq⟩ := List.mem_map.mp ha
      have := registryPairs_fst_mem rest a hb
      rw [← heq] at this
      exact hkeys.1 this

/-- Every sequence of registrations leaves a well-formed registry. -/
theorem applyOps_wf (ops : List (String × String)) : registryWF (applyOps ops) := by
  suffices h : ∀ (o : List (String × String)) (reg : Registry), registryWF reg →
      registryWF (o.foldl (fun r op => (register_workflow r op.1 op.2).1) reg) by
    exact h ops [] ⟨by simp, by simp⟩
  intro o
  induction o with
  | nil =>
    intro reg h
    simpa using h
  | cons op rest ih =>
    intro reg h
    exact ih _ (register_workflow_wf reg op.1 op.2 h)

/-- Claim C9: `register_workflow` raises an invalid-argument ValueError on
an empty service name and a duplicate-workflow ValueError when the name
already exists in the service, leaving the registry unchanged in both
cases; and after any sequence of registrations (in particular any
sequence of successful ones) starting from the empty registry, no two
registered workflows share the same (service name, workflow name) pair. -/
theorem register_workflow_spec (reg : Registry) (s w : String)
    (ops : List (String × String)) :
    (s = "" → register_workflow reg s w = (reg, some RegisterError.invalidServiceName)) ∧
    (s ≠ "" → w ∈ (List.lookup s reg).getD [] →
      register_workflow reg s w = (reg, some RegisterError.duplicateWorkflow)) ∧
    (registryPairs (applyOps ops)).Nodup := by
  refine ⟨?_, ?_, registryWF_pairs _ (applyOps_wf ops)⟩
  · intro h
    simp [register_workflow, h]
  · intro hs hw
    have hnn : ¬(List.lookup s reg).isNone := by
      cases hl : List.lookup s reg with
      | none =>
        rw [hl] at hw
        simp at hw
      | some ws => simp
    simp [register_workflow, hs, ensureService, hnn, hw]

/-- Witness for `register_workflow_spec` on concrete registrations. -/
theorem register_workflow_spec_witness :
    register_workflow [("orders", ["process"])] "" "ship"
      = ([("orders", ["process"])], some RegisterError.invalidServiceName)
    ∧ register_workflow [("orders", ["process"])] "orders" "process"
      = ([("orders", ["process"])], some RegisterError.duplicateWorkflow)
    ∧ (registryPairs (applyOps
        [("orders", "process"), ("orders", "ship"), ("billing", "process")])).Nodup := by
  refine ⟨?_, ?_, ?_⟩
  · exact (register_workflow_spec [("orders", ["process"])] "" "ship" []).1 rfl
  · exact (register_workflow_spec [("orders", ["process"])] "orders" "process" []).2.1
      (by decide) (by decide)
  · exact (register_workflow_spec [] "x" "y"
      [("orders", "process"), ("orders", "ship"), ("billing", "process")]).2.2

end DurableSDK
